import Mathlib

/-!
Shallow embedding of the RCON session layer and automation engine of the
Console-Rust-RCON-Port repository (`serverowner.py`, `Emote.py`, `Mods.py`),
together with theorems checking the specification's claims against it.

Conventions of the embedding:
* Python `dict`s become association lists (`dictInsert`, `lookupD`, `eraseKey`)
  with insert-or-overwrite semantics that keep the position of an overwritten key.
* Python `datetime` timestamps become integers counting seconds;
  `timedelta(minutes = c)` becomes `c * 60`.
* Network effects (whether a websocket connect or send succeeds, which frame
  arrives, whether an awaited future resolves or times out) are passed in as
  explicit parameters, so every function is a pure, executable state transformer.
* JSON decoding of inbound frames is represented by an inductive frame type:
  a frame is either a decoded envelope with its fields, or a malformed raw text
  (the `json.JSONDecodeError` case).
-/

set_option autoImplicit false
set_option maxRecDepth 10000

/-- Association-list model of a Python `dict` assignment `d[k] = v`:
overwrite in place if the key exists, otherwise append the new binding. -/
def dictInsert {α β : Type} [BEq α] (d : List (α × β)) (k : α) (v : β) : List (α × β) :=
  if d.any (fun p => p.1 == k) then d.map (fun p => if p.1 == k then (k, v) else p)
  else d ++ [(k, v)]

/-- Association-list lookup; keys of a Python dict are unique, first binding wins. -/
def lookupD {α β : Type} [BEq α] : List (α × β) → α → Option β
  | [], _ => none
  | (k, v) :: rest, key => if k == key then some v else lookupD rest key

/-- Removal of a key, as Python `del d[k]` / `d.pop(k)`. -/
def eraseKey {α β : Type} [BEq α] : List (α × β) → α → List (α × β)
  | [], _ => []
  | (k, v) :: rest, key => if k == key then rest else (k, v) :: eraseKey rest key

/-- Model of Python `str.strip()`: drop whitespace from both ends.
(Stated over the character list so that it evaluates inside the kernel.) -/
def pyStripS (s : String) : String :=
  ⟨((s.data.dropWhile Char.isWhitespace).reverse.dropWhile Char.isWhitespace).reverse⟩

/-- Model of Python `str.startswith(pre)`. -/
def startsWithS (s pre : String) : Bool := pre.data.isPrefixOf s.data

/-- Replacement of every occurrence of a non-empty pattern, leftmost first and
non-overlapping, as Python `str.replace` (the empty-pattern case, which Python
treats specially, is never used by the source on an empty pattern's side). -/
def replaceList (pat rep : List Char) : List Char → List Char
  | [] => []
  | c :: rest =>
    if pat ≠ [] ∧ pat.isPrefixOf (c :: rest) then
      rep ++ replaceList pat rep (rest.drop (pat.length - 1))
    else c :: replaceList pat rep rest
  termination_by l => l.length
  decreasing_by
    · simp only [List.length_drop, List.length_cons]; omega
    · simp only [List.length_cons]; omega

/-- Model of Python `s.replace(pat, rep)` for a non-empty `pat`. -/
def pyReplace (s pat rep : String) : String :=
  ⟨replaceList pat.data rep.data s.data⟩

/-- Model of `message.replace("\u0000", "")`: drop every NUL character. -/
def stripNulls (s : String) : String :=
  ⟨s.data.filter (fun c => c ≠ Char.ofNat 0)⟩

/-- Model of `message.replace("\u0000", "").strip()`, the cleanup every
receive path applies to the decoded `Message` field. -/
def pyClean (s : String) : String := pyStripS (stripNulls s)

/-! ## serverowner.py — `RawRCONClient`

The client that pairs each outbound command with an `asyncio.Future` stored in
`pending_responses`, keyed by the correlation identifier. -/

namespace RawRCON

/-- State of a `RawRCONClient`: the identifier counter, connection flags, and
the identifiers that currently have a pending response future.
The future objects themselves carry no further state that the claims need. -/
structure ClientState where
  command_counter : Nat
  is_connected : Bool
  websocket_open : Bool
  pending_responses : List Int
  deriving DecidableEq, Repr

/-- An inbound websocket frame as seen by `_process_response`:
either it decodes as the JSON envelope (with its `Message` and `Identifier`
fields), or `json.loads` raises `JSONDecodeError`. -/
inductive WireFrame where
  | envelope (message : String) (identifier : Int)
  | malformed (raw : String)
  deriving DecidableEq, Repr

/-- Model of `RawRCONClient._process_response`: null-strip the text, then
fulfill and delete the matching pending entry if there is one; a malformed
frame is only printed.  Returns the new pending map and the completion
(identifier, delivered text) performed, if any. -/
def process_response (pending : List Int) : WireFrame → List Int × Option (Int × String)
  | .envelope m idn =>
    let msg := pyClean m
    if pending.contains idn then (pending.erase idn, some (idn, msg))
    else (pending, none)
  | .malformed _ => (pending, none)

/-- Outcome of awaiting the response future inside `send_raw_command`:
the matching frame arrived with this (already cleaned) text, the 10 s
`asyncio.wait_for` elapsed, or `websocket.send` itself raised. -/
inductive AwaitOutcome where
  | response (text : String)
  | timeout
  | sendError (msg : String)
  deriving DecidableEq, Repr

/-- Literal returned by `send_raw_command` when no connection could be made. -/
def connectFailedReturn : String := "❌ Failed to connect to server"

/-- Literal returned by `send_raw_command` when the awaited future timed out. -/
def timeoutReturn : String := "⏰ Command timed out - no response received"

/-- Literal returned for a matched but empty response text. -/
def emptyAckReturn : String := "✅ Command executed (empty response)"

/-- Model of `RawRCONClient.send_raw_command`.  `connectOk` is whether a
reconnection attempt (made only when disconnected) would succeed; `outcome`
is what happens to the awaited future.  Returns the new state, the string
handed back to the caller, and the identifier that was allocated (if the
send got as far as allocating one). -/
def send_raw_command (st : ClientState) (cmd : String) (connectOk : Bool)
    (outcome : AwaitOutcome) : ClientState × String × Option Nat :=
  if (!st.is_connected || !st.websocket_open) && !connectOk then
    ({ st with is_connected := false }, connectFailedReturn, none)
  else
    let st1 : ClientState :=
      if !st.is_connected || !st.websocket_open then
        { st with is_connected := true, websocket_open := true }
      else st
    let current_id : Int := (st1.command_counter : Int)
    let pending1 := current_id :: st1.pending_responses
    match outcome with
    | .response r =>
      ({ st1 with command_counter := st1.command_counter + 1,
                  pending_responses := pending1.erase current_id },
       (if r = "" then emptyAckReturn else r), some st1.command_counter)
    | .timeout =>
      ({ st1 with command_counter := st1.command_counter + 1,
                  pending_responses := pending1.erase current_id },
       timeoutReturn, some st1.command_counter)
    | .sendError e =>
      ({ st1 with is_connected := false,
                  pending_responses := pending1.erase current_id },
       "❌ Error: " ++ e, some st1.command_counter)

/-- Model of `RawRCONClient.close`: cancel the receive task, close and drop
the socket, mark disconnected.  The second component is the list of
(identifier, error text) completions `close` performs on pending
requests — the source completes none, so it is always empty. -/
def close (st : ClientState) : ClientState × List (Int × String) :=
  ({ st with is_connected := false, websocket_open := false }, [])

/-- One iteration of `RawRCONClient._receive_messages`: a frame is dispatched
to `_process_response`, a 1 s `recv` timeout just loops, a closed connection
marks disconnected and breaks the loop.  The boolean is whether the loop
continues. -/
inductive RecvEvent where
  | frame (f : WireFrame)
  | recvTimeout
  | connClosed
  deriving DecidableEq, Repr

/-- Model of one iteration of `RawRCONClient._receive_messages`. -/
def receive_iteration (st : ClientState) (ev : RecvEvent) :
    ClientState × Option (Int × String) × Bool :=
  match ev with
  | .frame f =>
    let r := process_response st.pending_responses f
    ({ st with pending_responses := r.1 }, r.2, true)
  | .recvTimeout => (st, none, true)
  | .connClosed => ({ st with is_connected := false }, none, false)

end RawRCON

/-! ## Emote.py — `RCONListener`

The passive listener: `connect` sends the session-opening no-op envelope with
identifier 1, `send_command` fires commands without awaiting responses, and
`listen_continuously` feeds every decoded non-empty message to a callback. -/

namespace EmoteBot

/-- State of `Emote.py`'s `RCONListener`. -/
structure ListenerState where
  command_counter : Nat
  is_connected : Bool
  websocket_open : Bool
  deriving DecidableEq, Repr

/-- The outbound JSON envelope; `Type` is always `"Command"` and `Stacktrace`
always `null` in the source, so only the varying fields are modelled. -/
structure Envelope where
  Message : String
  Identifier : Nat
  deriving DecidableEq, Repr

/-- The `__init__` state: `command_counter = 1`, not connected. -/
def initState : ListenerState :=
  { command_counter := 1, is_connected := false, websocket_open := false }

/-- The session-opening no-op envelope sent by `connect`:
`{"Message": "", "Identifier": 1, "Type": "Command"}`. -/
def initEnvelope : Envelope := { Message := "", Identifier := 1 }

/-- Model of `RCONListener.connect`: on success, mark connected and emit the
initial envelope; note that it does not touch `command_counter`. -/
def connect (s : ListenerState) (connectOk : Bool) : ListenerState × Option Envelope :=
  if connectOk then
    ({ s with is_connected := true, websocket_open := true }, some initEnvelope)
  else ({ s with is_connected := false }, none)

/-- Model of `RCONListener.send_command` (the connect-if-needed step is folded
into `sendOk`): a successful send writes an envelope carrying the current
counter value and then increments the counter; a failed send marks
disconnected and leaves the counter alone. -/
def send_command (s : ListenerState) (cmd : String) (sendOk : Bool) :
    ListenerState × Option Envelope :=
  if sendOk then
    ({ s with command_counter := s.command_counter + 1 },
     some { Message := cmd, Identifier := s.command_counter })
  else ({ s with is_connected := false }, none)

/-- Identifiers allocated by a sequence of successful `send_command` calls. -/
def idsOfSends (s : ListenerState) : List String → List Nat
  | [] => []
  | c :: rest =>
    match send_command s c true with
    | (s', some e) => e.Identifier :: idsOfSends s' rest
    | (s', none) => idsOfSends s' rest

/-- An inbound frame as seen by `listen_continuously`: decoded envelope or
`json.JSONDecodeError`. -/
inductive InFrame where
  | envelope (message : String) (identifier : Int)
  | malformed (raw : String)
  deriving DecidableEq, Repr

/-- What one iteration of `listen_continuously` does with a frame. -/
inductive ListenAction where
  | callback (msg : String)
  | skipEmpty
  | logNonJson (raw : String)
  deriving DecidableEq, Repr

/-- Model of the frame handling inside `RCONListener.listen_continuously`:
decode, null-strip; invoke the processing callback only for a non-empty
message; print (and nothing else) for a malformed frame.  Every branch
continues the `while True` loop. -/
def listen_step : InFrame → ListenAction
  | .envelope m _ =>
    let msg := pyClean m
    if msg = "" then .skipEmpty else .callback msg
  | .malformed raw => .logNonJson raw

/-- The message handed to the processing callback by an action, if any. -/
def delivered : ListenAction → Option String
  | .callback m => some m
  | .skipEmpty => none
  | .logNonJson _ => none

/-- Model of `Emote.py`'s `RCONListener.close`: a no-op when the socket is
already gone, otherwise close it and mark disconnected. -/
def closeListener (s : ListenerState) : ListenerState :=
  if s.websocket_open then { s with websocket_open := false, is_connected := false } else s

end EmoteBot

/-! ## Mods.py — `process_rcon_message`

The correlated dispatcher of `Mods.py`: pending commands carry metadata
(command type, Discord channel, original message); responses are matched by
identifier, deduplicated via `processed_ids`. -/

namespace ModsBot

/-- Metadata stored in `pending_responses[current_id]` by `send_command`
(the Discord channel object is opaque to the claims). -/
structure CommandInfo where
  ctype : String
  original : String
  deriving DecidableEq, Repr

/-- The parts of `Mods.py`'s `RCONListener` state that `process_rcon_message`
touches. -/
structure ListenerState where
  pending_responses : List (Int × CommandInfo)
  processed_ids : List Int
  deriving DecidableEq, Repr

/-- Model of `Mods.py`'s `process_rcon_message`: an empty message returns at
once; an already-processed identifier returns; otherwise a matching pending
entry is marked processed, popped, and its metadata used to format a reply
(the formatted reply itself is out of scope — the popped entry is returned). -/
def process_rcon_message (st : ListenerState) (message : String) (identifier : Int) :
    ListenerState × Option CommandInfo :=
  if message = "" then (st, none)
  else if st.processed_ids.contains identifier then (st, none)
  else
    match lookupD st.pending_responses identifier with
    | some info =>
      ({ pending_responses := eraseKey st.pending_responses identifier,
         processed_ids := identifier :: st.processed_ids }, some info)
    | none => (st, none)

end ModsBot

/-! ## Emote.py — `EmoteManager`

The automation engine: trigger registry (`emotes_data`), per-(player, emote)
cooldowns, the coordinate store, the single pending-capture marker
`current_printpos_player`, and the processed-chat-event set. -/

namespace EmoteBot

/-- One trigger registry entry: the raw `time` string (cooldown in minutes)
and the ordered command templates of the section. -/
structure EmoteData where
  time : String
  commands : List String
  deriving DecidableEq, Repr

/-- The mutable `EmoteManager` state. -/
structure EmoteState where
  emote_cooldowns : List (String × Int)
  coordinates : List (String × String)
  emotes_data : List (String × EmoteData)
  current_printpos_player : Option String
  processed_chat_ids : List String
  deriving DecidableEq, Repr

/-- Model of Python `int(s)` on a string: strip whitespace, optional sign,
then a non-empty run of decimal digits; anything else raises `ValueError`
(`none` here).  Digit-group underscores are not modelled. -/
def pyInt (s : String) : Option Int :=
  let core : List Char → Option Int := fun ds =>
    if ds.isEmpty || !ds.all (fun c => c.isDigit) then none
    else some (ds.foldl (fun a c => a * 10 + ((c.toNat : Int) - 48)) 0)
  match (pyStripS s).data with
  | '-' :: ds => (core ds).map (fun n => -n)
  | '+' :: ds => core ds
  | ds => core ds

/-- Characters matched by the character class `[-\d\.]` of the coordinate
pattern. -/
def isCoordChar (c : Char) : Bool := c = '-' || c.isDigit || c = '.'

/-- Maximal run of coordinate characters at the head of the list; `none` when
empty (the `+` of the regex requires at least one). -/
def takeGroup (l : List Char) : Option (List Char × List Char) :=
  let g := l.takeWhile isCoordChar
  if g.isEmpty then none else some (g, l.dropWhile isCoordChar)

/-- Attempt to match `\(([-\d\.]+),\s*([-\d\.]+),\s*([-\d\.]+)\)` at the head
of the list.  Greedy matching followed by a required character outside the
class needs no backtracking, so maximal munch is exact. -/
def matchCoordsAt (l : List Char) : Option (List Char × List Char × List Char) :=
  match l with
  | '(' :: r0 =>
    match takeGroup r0 with
    | none => none
    | some (x, r1) =>
      match r1 with
      | ',' :: r2 =>
        match takeGroup (r2.dropWhile (fun c => c.isWhitespace)) with
        | none => none
        | some (y, r4) =>
          match r4 with
          | ',' :: r5 =>
            match takeGroup (r5.dropWhile (fun c => c.isWhitespace)) with
            | none => none
            | some (z, r7) =>
              match r7 with
              | ')' :: _ => some (x, y, z)
              | _ => none
          | _ => none
      | _ => none
  | _ => none

/-- Model of `re.search` with the coordinate pattern: try each start position
left to right. -/
def searchCoords : List Char → Option (List Char × List Char × List Char)
  | [] => none
  | c :: rest =>
    match matchCoordsAt (c :: rest) with
    | some r => some r
    | none => searchCoords rest

/-- Model of `EmoteManager.extract_coordinates`: on a match, the groups joined
with commas (`f"{x},{y},{z}"`). -/
def extract_coordinates (line : String) : Option String :=
  match searchCoords line.data with
  | some (x, y, z) => some ⟨x ++ ',' :: y ++ ',' :: z⟩
  | none => none

/-- Model of the command loop inside `EmoteManager.handle_emote_request`.
`ok i` is whether the i-th `rcon_listener.send_command` call of this
evaluation returns `True`.  Returns the final pending-capture marker, the
formatted commands actually transmitted (in order), the count of commands
executed, and the teleport-failed flag. -/
def execCommands (coords : List (String × String)) (marker : Option String)
    (player : String) (cmds : List String) (ok : Nat → Bool) (i : Nat) :
    Option String × List String × Nat × Bool :=
  match cmds with
  | [] => (marker, [], 0, false)
  | command :: rest =>
    if pyStripS command = "" then execCommands coords marker player rest ok i
    else if startsWithS command "printpos" then
      if ok i then
        let fc := "printpos \"" ++ player ++ "\""
        let r := execCommands coords (some player) player rest ok (i + 1)
        (r.1, fc :: r.2.1, r.2.2.1 + 1, r.2.2.2)
      else execCommands coords marker player rest ok (i + 1)
    else if startsWithS command "teleportpos" then
      match lookupD coords player with
      | some co =>
        if ok i then
          let fc := "teleportpos " ++ co ++ " \"" ++ player ++ "\""
          let r := execCommands coords marker player rest ok (i + 1)
          (r.1, fc :: r.2.1, r.2.2.1 + 1, r.2.2.2)
        else execCommands coords marker player rest ok (i + 1)
      | none =>
        let r := execCommands coords marker player rest ok i
        (r.1, r.2.1, r.2.2.1, true)
    else
      if ok i then
        let fc := pyReplace command "\x7bplayer\x7d" player
        let r := execCommands coords marker player rest ok (i + 1)
        (r.1, fc :: r.2.1, r.2.2.1 + 1, r.2.2.2)
      else execCommands coords marker player rest ok (i + 1)

/-- Outcome reported (printed / sent to the logs channel) by one trigger
evaluation. -/
inductive EmoteOutcome where
  | notConfigured
  | disabled
  | onCooldown (minutesLeft secondsLeft : Int)
  | success (count : Nat)
  | teleportNoCoords
  | nothingExecuted
  | noCommandsConfigured
  deriving DecidableEq, Repr

/-- Model of the post-gate part of `EmoteManager.handle_emote_request`: run
the command list, then update the cooldown timestamp only when at least one
command was executed. -/
def executePhase (st : EmoteState) (ok : Nat → Bool) (now : Int)
    (player cooldown_key : String) (data : EmoteData) :
    EmoteState × List String × EmoteOutcome :=
  if data.commands.isEmpty then (st, [], .noCommandsConfigured)
  else
    let r := execCommands st.coordinates st.current_printpos_player player data.commands ok 0
    if r.2.2.1 > 0 then
      ({ st with current_printpos_player := r.1,
                 emote_cooldowns := dictInsert st.emote_cooldowns cooldown_key now },
       r.2.1, .success r.2.2.1)
    else
      ({ st with current_printpos_player := r.1 }, r.2.1,
       if r.2.2.2 then .teleportNoCoords else .nothingExecuted)

/-- Model of `EmoteManager.handle_emote_request`: registry lookup, the
`int(...)`-with-fallback cooldown parse, the disabled check, the cooldown
gate, then `executePhase`.  `now` is `datetime.now()` in seconds. -/
def handle_emote_request (st : EmoteState) (ok : Nat → Bool) (now : Int)
    (player emote : String) : EmoteState × List String × EmoteOutcome :=
  match lookupD st.emotes_data emote with
  | none => (st, [], .notConfigured)
  | some data =>
    let cooldown_minutes : Int := (pyInt data.time).getD 0
    if cooldown_minutes = 0 then (st, [], .disabled)
    else
      let cooldown_key := player ++ "_" ++ emote
      match lookupD st.emote_cooldowns cooldown_key with
      | some last_request =>
        if now - last_request < cooldown_minutes * 60 then
          let left := cooldown_minutes * 60 - (now - last_request)
          (st, [], .onCooldown (left / 60) (left % 60))
        else executePhase st ok now player cooldown_key data
      | none => executePhase st ok now player cooldown_key data

/-- Fields of a chat-event JSON object, as read by `process_message`
(`Username`, `Message`, `UserId`, `Time`, with their `.get` defaults). -/
structure ChatData where
  Username : String
  Message : String
  UserId : Int
  Time : Int
  deriving DecidableEq, Repr

/-- The deduplication key `f"{user_id}_{timestamp}_{message_content}"`. -/
def chatKey (cd : ChatData) : String :=
  toString cd.UserId ++ "_" ++ toString cd.Time ++ "_" ++ pyStripS cd.Message

/-- Model of Python's substring test `needle in hay`. -/
def containsSub (hay needle : List Char) : Bool :=
  match hay with
  | [] => needle.isEmpty
  | _ :: rest => needle.isPrefixOf hay || containsSub rest needle

/-- First registry trigger name (in registry order) that is a substring of the
chat text — `for emote_name in self.emotes_data.keys(): if emote_name in
message_content`. -/
def firstEmoteIn (emotes : List (String × EmoteData)) (content : String) : Option String :=
  match emotes with
  | [] => none
  | (name, _) :: rest =>
    if containsSub content.data name.data then some name else firstEmoteIn rest content

/-- Model of `EmoteManager.process_message`.  `text` is the (already cleaned)
message handed in by the listener; `parsed` is the result of `json.loads`
when the text starts with a brace (`none` for a `JSONDecodeError`).
Returns the new state, the RCON commands transmitted, and the reported
outcome when a trigger evaluation ran. -/
def process_message (st : EmoteState) (ok : Nat → Bool) (now : Int)
    (text : String) (parsed : Option ChatData) :
    EmoteState × List String × Option EmoteOutcome :=
  if startsWithS (pyStripS text) "\x7b" then
    match parsed with
    | none => (st, [], none)
    | some cd =>
      let content := pyStripS cd.Message
      let chat_id := chatKey cd
      if st.processed_chat_ids.contains chat_id then (st, [], none)
      else
        let st1 := { st with processed_chat_ids := chat_id :: st.processed_chat_ids }
        match firstEmoteIn st1.emotes_data content with
        | some emote =>
          let r := handle_emote_request st1 ok now cd.Username emote
          (r.1, r.2.1, some r.2.2)
        | none => (st1, [], none)
  else if (searchCoords text.data).isSome then
    match extract_coordinates text, st.current_printpos_player with
    | some co, some p =>
      if co ≠ "" ∧ p ≠ "" then
        ({ st with coordinates := dictInsert st.coordinates p co,
                   current_printpos_player := none }, [], none)
      else (st, [], none)
    | _, _ => (st, [], none)
  else (st, [], none)

end EmoteBot

/-! ## Emote.py — trigger registry config file

`_write_emote_config` / `_read_emote_config` work line by line, so a file is
modelled as a list of lines and a line as a `List Char` (faithful as long as
no stored string contains a newline, which the round-trip hypotheses
require). -/

namespace EmoteConfig

/-- A line of the config file. -/
abbrev Line := List Char

/-- Model of Python `str.strip()` on a line: drop whitespace from both ends. -/
def pyStrip (l : Line) : Line :=
  ((l.dropWhile Char.isWhitespace).reverse.dropWhile Char.isWhitespace).reverse

/-- One section's data: the raw `time` value string and the command lines. -/
structure ConfigEntry where
  time : Line
  commands : List Line
  deriving DecidableEq, Repr

/-- Intermediate state of the `_read_emote_config` loop:
(dict so far, `current_section`, `time_value`, `commands`).
`current_section` is a plain string with `[]` standing for Python's `None`
(the source only ever tests its truthiness, for which `None` and `""`
agree). -/
abbrev ReadState := List (Line × ConfigEntry) × Line × Line × List Line

/-- Model of one iteration of the `_read_emote_config` line loop. -/
def readStep (acc : ReadState) (rawLine : Line) : ReadState :=
  let (dict, cur, tv, cmds) := acc
  let line := pyStrip rawLine
  if line.isEmpty || ['#'].isPrefixOf line then acc
  else if ['['].isPrefixOf line && [']'].isSuffixOf line then
    let dict' := if cur.isEmpty then dict else dictInsert dict cur ⟨tv, cmds⟩
    (dict', (line.drop 1).dropLast, ['0'], [])
  else if ("time =").data.isPrefixOf line then
    (dict, cur, pyStrip (line.drop 6), cmds)
  else if cur.isEmpty then acc
  else (dict, cur, tv, cmds ++ [line])

/-- Final step of `_read_emote_config`: save the last open section, if any. -/
def finishRead (s : ReadState) : List (Line × ConfigEntry) :=
  if s.2.1.isEmpty then s.1 else dictInsert s.1 s.2.1 ⟨s.2.2.1, s.2.2.2⟩

/-- Model of `EmoteManager._read_emote_config`: fold the loop over the lines,
then save the last open section. -/
def read_emote_config (lines : List Line) : List (Line × ConfigEntry) :=
  finishRead (lines.foldl readStep ([], [], ['0'], []))

/-- The comment header written at the top of the file (the final `write` ends
in a double newline, hence the trailing empty line). -/
def headerLines : List Line :=
  [("# Emote Configuration File").data, ("# Format:").data, ("# [emote_name]").data,
   ("# time = 60  # Cooldown in minutes (0 = disabled)").data, ("# command1").data,
   ("# command2").data, ("# ...").data, []]

/-- The lines `_write_emote_config` emits for one section. -/
def sectionLines (name : Line) (e : ConfigEntry) : List Line :=
  ('[' :: name ++ [']']) :: (("time = ").data ++ e.time) :: e.commands ++ [[]]

/-- Model of `EmoteManager._write_emote_config`.  The source iterates
`sorted(emotes_data_dict.items())`; here `entries` is that already-sorted
item list of the dict (so its names are distinct). -/
def write_emote_config (entries : List (Line × ConfigEntry)) : List Line :=
  headerLines ++ entries.foldr (fun p acc => sectionLines p.1 p.2 ++ acc) []

/-- Conditions under which a section name survives the trip through the text
file: non-empty (the reader treats an empty `current_section` as "no open
section") and newline-free (so it stays on one line). -/
def goodName (n : Line) : Bool := !n.isEmpty && !n.contains '\n'

/-- Conditions for a `time` value: strip-invariant and newline-free. -/
def goodTime (t : Line) : Bool := decide (pyStrip t = t) && !t.contains '\n' 

/-- Conditions for a command line to be read back verbatim: strip-invariant,
non-empty, newline-free, not a comment, not shaped like a section header,
and not starting with `time =`. -/
def goodCommand (c : Line) : Bool :=
  decide (pyStrip c = c) && !c.isEmpty && !c.contains '\n' &&
    !(['#'].isPrefixOf c) && !(['['].isPrefixOf c && [']'].isSuffixOf c) &&
    !(("time =").data.isPrefixOf c)

end EmoteConfig

/-! ## Theorems for the claims -/

/-- Helper: `List.range'` is strictly increasing. -/
theorem chain_lt_range' (a n : Nat) : (List.range' a n).Chain' (· < ·) := by
  induction n generalizing a with
  | zero => simp
  | succ n ih =>
    rw [List.range'_succ]
    cases n with
    | zero => simp
    | succ m =>
      rw [List.range'_succ]
      exact List.Chain'.cons (by omega) (by rw [← List.range'_succ]; exact ih (a + 1))

/-- Helper: a run of successful sends allocates the consecutive identifiers
starting at the current counter. -/
theorem idsOfSends_eq_range' (s : EmoteBot.ListenerState) (cmds : List String) :
    EmoteBot.idsOfSends s cmds = List.range' s.command_counter cmds.length := by
  induction cmds generalizing s with
  | nil => rfl
  | cons c rest ih =>
    simp [EmoteBot.idsOfSends, EmoteBot.send_command, List.range'_succ, ih]

/-- C1 counterexample: in `Emote.py`, `connect` sends the no-op envelope with
identifier 1, yet the first ordinary `send_command` after it also goes out
with identifier 1 (the counter starts at 1 and `connect` never advances it),
so identifier 1 is not reserved for the session-opening envelope. -/
theorem claim1_counterexample :
    (EmoteBot.connect EmoteBot.initState true).2 = some { Message := "", Identifier := 1 } ∧
    (EmoteBot.send_command (EmoteBot.connect EmoteBot.initState true).1 "serverinfo" true).2
      = some { Message := "serverinfo", Identifier := 1 } :=
  ⟨rfl, rfl⟩

/-- C1 amended: identifiers allocated by successive completed sends are
strictly increasing (consecutive from the counter), a completed
`send_raw_command` always leaves the pending map exactly as it found it (its
own entry is registered and removed within the call, so an identifier is
never reused while pending), and the counter advances by one on a response or
a timeout — but identifier 1 is not reserved: the first ordinary command of a
session is also sent with identifier 1. -/
theorem claim1_identifier_allocation :
    (∀ s cmds, EmoteBot.idsOfSends s cmds = List.range' s.command_counter cmds.length) ∧
    (∀ s cmds, (EmoteBot.idsOfSends s cmds).Chain' (· < ·)) ∧
    (∀ st cmd connectOk outcome,
      (RawRCON.send_raw_command st cmd connectOk outcome).1.pending_responses
        = st.pending_responses) ∧
    (∀ st cmd outcome,
      (RawRCON.send_raw_command st cmd true outcome).2.2 = some st.command_counter) ∧
    (∀ st cmd r,
      (RawRCON.send_raw_command st cmd true (.response r)).1.command_counter
        = st.command_counter + 1) ∧
    (∀ st cmd,
      (RawRCON.send_raw_command st cmd true .timeout).1.command_counter
        = st.command_counter + 1) := by
  refine ⟨idsOfSends_eq_range', ?_, ?_, ?_, ?_, ?_⟩
  · intro s cmds
    rw [idsOfSends_eq_range']
    exact chain_lt_range' _ _
  · intro st cmd connectOk outcome
    cases outcome <;> simp [RawRCON.send_raw_command] <;> split <;>
      simp_all [List.erase_cons_head] <;> split <;> rfl
  · intro st cmd outcome
    cases outcome <;> simp [RawRCON.send_raw_command] <;> split <;> simp_all
  · intro st cmd r
    simp [RawRCON.send_raw_command] <;> split <;> simp_all
  · intro st cmd
    simp [RawRCON.send_raw_command] <;> split <;> simp_all

/-- C4: an awaited `send_raw_command` whose future times out returns the
dedicated timeout text — different from the connection-failure text, so the
caller can tell the two kinds apart — and the pending map it leaves behind
equals the one it started from: its identifier was removed, nothing leaks. -/
theorem claim4_timeout_removes_pending (st : RawRCON.ClientState) (cmd : String) :
    (RawRCON.send_raw_command st cmd true .timeout).2.1 = RawRCON.timeoutReturn ∧
    RawRCON.timeoutReturn ≠ RawRCON.connectFailedReturn ∧
    RawRCON.timeoutReturn.data.head? = some '⏰' ∧
    RawRCON.connectFailedReturn.data.head? = some '❌' ∧
    (RawRCON.send_raw_command st cmd true .timeout).1.pending_responses
      = st.pending_responses := by
  refine ⟨?_, by decide, by decide, by decide, ?_⟩ <;>
    simp [RawRCON.send_raw_command] <;> split <;> simp_all

/-- C7 counterexample: `close` on a client with pending request 2 leaves that
request in the pending map and completes nothing, so it does not fail
outstanding pending requests with a "session closed" error. -/
theorem claim7_counterexample :
    (RawRCON.close { command_counter := 3, is_connected := true,
                     websocket_open := true, pending_responses := [2] }).1.pending_responses
      = [2] ∧
    (RawRCON.close { command_counter := 3, is_connected := true,
                     websocket_open := true, pending_responses := [2] }).2 = [] :=
  ⟨rfl, rfl⟩

/-- C7 amended: `close()` is idempotent, releases the socket and marks the
session disconnected, but it does not fail pending requests: it performs no
completions and leaves the pending map untouched. -/
theorem claim7_close_idempotent_but_pending_leaks :
    (∀ st, RawRCON.close (RawRCON.close st).1 = RawRCON.close st) ∧
    (∀ st, (RawRCON.close st).1.is_connected = false ∧
           (RawRCON.close st).1.websocket_open = false ∧
           (RawRCON.close st).1.pending_responses = st.pending_responses ∧
           (RawRCON.close st).2 = []) ∧
    (∀ s, EmoteBot.closeListener (EmoteBot.closeListener s) = EmoteBot.closeListener s) ∧
    (∀ s, (EmoteBot.closeListener s).websocket_open = false) := by
  refine ⟨fun st => rfl, fun st => ⟨rfl, rfl, rfl, rfl⟩, ?_, ?_⟩
  · intro s
    simp [EmoteBot.closeListener]
    split <;> simp_all
  · intro s
    simp [EmoteBot.closeListener]
    split <;> simp_all

/-- C8 counterexample: a malformed (non-JSON) frame is only logged — nothing
is handed to the processing callback, so it is not forwarded to the passive
stream as the claim states. -/
theorem claim8_counterexample :
    EmoteBot.listen_step (.malformed "not json") = .logNonJson "not json" ∧
    EmoteBot.delivered (EmoteBot.listen_step (.malformed "not json")) = none :=
  ⟨rfl, rfl⟩

/-- C8 amended: a frame that is not valid envelope JSON is logged and
discarded — it is not delivered to the processing callback — it never matches
or fulfills a pending request (the pending map is untouched), and it never
terminates the receive loop. -/
theorem claim8_malformed_frames :
    (∀ raw, EmoteBot.listen_step (.malformed raw) = .logNonJson raw) ∧
    (∀ raw, EmoteBot.delivered (EmoteBot.listen_step (.malformed raw)) = none) ∧
    (∀ pending raw, RawRCON.process_response pending (.malformed raw) = (pending, none)) ∧
    (∀ st raw, (RawRCON.receive_iteration st (.frame (.malformed raw))).2 = (none, true)) ∧
    (∀ st raw, (RawRCON.receive_iteration st (.frame (.malformed raw))).1.pending_responses
       = st.pending_responses) :=
  ⟨fun _ => rfl, fun _ => rfl, fun _ _ => rfl, fun _ _ => rfl, fun _ _ => rfl⟩

/-- C10: an envelope whose null-stripped, trimmed message text is empty is
never delivered: the Emote listener skips the callback, and the Mods
processor returns before consulting the pending map, so even a correlated
empty response completes nothing and removes no pending entry. -/
theorem claim10_empty_message (m : String) (idn : Int)
    (st : ModsBot.ListenerState) (i : Int) (h : pyClean m = "") :
    EmoteBot.listen_step (.envelope m idn) = .skipEmpty ∧
    EmoteBot.delivered (EmoteBot.listen_step (.envelope m idn)) = none ∧
    ModsBot.process_rcon_message st "" i = (st, none) := by
  refine ⟨?_, ?_, rfl⟩ <;> simp [EmoteBot.listen_step, EmoteBot.delivered, h]

/-- Helper: the executed-command count equals the number of transmitted
commands collected by `execCommands`. -/
theorem execCommands_count_eq_length (coords : List (String × String))
    (marker : Option String) (player : String) (cmds : List String)
    (ok : Nat → Bool) (i : Nat) :
    (EmoteBot.execCommands coords marker player cmds ok i).2.2.1
      = (EmoteBot.execCommands coords marker player cmds ok i).2.1.length := by
  induction cmds generalizing marker i with
  | nil => rfl
  | cons c rest ih =>
    simp only [EmoteBot.execCommands]
    repeat' split
    all_goals simp [ih, List.length_cons]

/-- Helper: a trigger evaluation either leaves the cooldown map unchanged or
transmitted at least one command. -/
theorem handle_cooldowns_or_sends (st : EmoteBot.EmoteState) (ok : Nat → Bool)
    (now : Int) (player emote : String) :
    (EmoteBot.handle_emote_request st ok now player emote).1.emote_cooldowns
      = st.emote_cooldowns
    ∨ (EmoteBot.handle_emote_request st ok now player emote).2.1 ≠ [] := by
  simp only [EmoteBot.handle_emote_request, EmoteBot.executePhase]
  repeat' split
  all_goals try exact Or.inl rfl
  all_goals
    rename_i hgt
    refine Or.inr ?_
    rw [execCommands_count_eq_length] at hgt
    intro hnil
    rw [hnil] at hgt
    simp at hgt

/-- Helper: a trigger evaluation never touches the processed-chat-event set. -/
theorem handle_preserves_processed (st : EmoteBot.EmoteState) (ok : Nat → Bool)
    (now : Int) (player emote : String) :
    (EmoteBot.handle_emote_request st ok now player emote).1.processed_chat_ids
      = st.processed_chat_ids := by
  simp only [EmoteBot.handle_emote_request, EmoteBot.executePhase]
  repeat' split
  all_goals rfl

/-- C6: a structured chat event leaves its `(user id, timestamp, text)` key in
the processed set, and a second chat event with the identical key is a
complete no-op: same state back, no commands transmitted, no outcome — so
duplicate chat events are processed at most once. -/
theorem claim6_chat_dedup (st : EmoteBot.EmoteState) (ok ok2 : Nat → Bool)
    (now now2 : Int) (text text2 : String) (cd : EmoteBot.ChatData)
    (h1 : startsWithS (pyStripS text) "\x7b" = true)
    (h2 : startsWithS (pyStripS text2) "\x7b" = true) :
    EmoteBot.chatKey cd
      ∈ (EmoteBot.process_message st ok now text (some cd)).1.processed_chat_ids ∧
    EmoteBot.process_message
        (EmoteBot.process_message st ok now text (some cd)).1 ok2 now2 text2 (some cd)
      = ((EmoteBot.process_message st ok now text (some cd)).1, [], none) := by
  have hkey : EmoteBot.chatKey cd
      ∈ (EmoteBot.process_message st ok now text (some cd)).1.processed_chat_ids := by
    simp only [EmoteBot.process_message, h1, if_true]
    by_cases hdup : EmoteBot.chatKey cd ∈ st.processed_chat_ids
    · simp [hdup]
    · simp only [List.elem_iff, hdup, if_false]
      cases hfe : EmoteBot.firstEmoteIn st.emotes_data (pyStripS cd.Message) with
      | some emote => simp [hfe, handle_preserves_processed]
      | none => simp [hfe]
  refine ⟨hkey, ?_⟩
  conv_lhs => rw [EmoteBot.process_message]
  simp [h2, hkey]

/-- C6 witness: the same concrete chat event delivered twice is recorded once
and the second delivery changes nothing. -/
theorem claim6_chat_dedup_witness :
    EmoteBot.chatKey ⟨"Alice", "hello", 42, 100⟩
      ∈ (EmoteBot.process_message ⟨[], [], [], none, []⟩ (fun _ => true) 0 "\x7bChat\x7d"
        (some ⟨"Alice", "hello", 42, 100⟩)).1.processed_chat_ids ∧
    EmoteBot.process_message
        (EmoteBot.process_message ⟨[], [], [], none, []⟩ (fun _ => true) 0 "\x7bChat\x7d"
          (some ⟨"Alice", "hello", 42, 100⟩)).1 (fun _ => true) 1 "\x7bChat\x7d"
        (some ⟨"Alice", "hello", 42, 100⟩)
      = ((EmoteBot.process_message ⟨[], [], [], none, []⟩ (fun _ => true) 0 "\x7bChat\x7d"
          (some ⟨"Alice", "hello", 42, 100⟩)).1, [], none) :=
  claim6_chat_dedup ⟨[], [], [], none, []⟩ (fun _ => true) (fun _ => true) 0 1
    "\x7bChat\x7d" "\x7bChat\x7d" ⟨"Alice", "hello", 42, 100⟩ (by decide) (by decide)

/-- C3: with a configured cooldown of `c > 0` minutes and a recorded last
execution at `t0`, a repeat event at `now` with `now - t0 < 60 c` seconds
executes nothing and reports the remaining time (whole minutes and leftover
seconds that sum back to exactly `60 c - (now - t0)`), while an event with
`now - t0 ≥ 60 c` passes the gate and proceeds to execute the trigger's
command list. -/
theorem claim3_cooldown_gate (st : EmoteBot.EmoteState) (ok : Nat → Bool)
    (now t0 c : Int) (player emote : String) (data : EmoteBot.EmoteData)
    (hdata : lookupD st.emotes_data emote = some data)
    (hc : EmoteBot.pyInt data.time = some c) (hcpos : 0 < c)
    (ht0 : lookupD st.emote_cooldowns (player ++ "_" ++ emote) = some t0) :
    (now - t0 < c * 60 →
      EmoteBot.handle_emote_request st ok now player emote
        = (st, [], .onCooldown ((c * 60 - (now - t0)) / 60) ((c * 60 - (now - t0)) % 60))
      ∧ 60 * ((c * 60 - (now - t0)) / 60) + (c * 60 - (now - t0)) % 60
          = c * 60 - (now - t0)
      ∧ 0 ≤ (c * 60 - (now - t0)) % 60 ∧ (c * 60 - (now - t0)) % 60 < 60) ∧
    (c * 60 ≤ now - t0 →
      EmoteBot.handle_emote_request st ok now player emote
        = EmoteBot.executePhase st ok now player (player ++ "_" ++ emote) data) := by
  constructor
  · intro hlt
    refine ⟨?_, Int.ediv_add_emod _ _, Int.emod_nonneg _ (by norm_num),
      Int.emod_lt_of_pos _ (by norm_num)⟩
    simp [EmoteBot.handle_emote_request, hdata, hc, ht0, hlt, ne_of_gt hcpos]
  · intro hge
    have hnlt : ¬ now - t0 < c * 60 := not_lt.mpr hge
    simp [EmoteBot.handle_emote_request, hdata, hc, ht0, hnlt, ne_of_gt hcpos]

/-- C3 witness: cooldown 5 minutes, last run at 100 s, repeat at 160 s:
rejected with 4 min 0 s remaining. -/
theorem claim3_cooldown_gate_witness :
    EmoteBot.handle_emote_request
        ⟨[("P_e", 100)], [], [("e", ⟨"5", ["giveto \x7bplayer\x7d wood 3000"]⟩)], none, []⟩
        (fun _ => true) 160 "P" "e"
      = (⟨[("P_e", 100)], [], [("e", ⟨"5", ["giveto \x7bplayer\x7d wood 3000"]⟩)], none, []⟩,
         [], .onCooldown 4 0) := by
  have h := (claim3_cooldown_gate
    ⟨[("P_e", 100)], [], [("e", ⟨"5", ["giveto \x7bplayer\x7d wood 3000"]⟩)], none, []⟩
    (fun _ => true) 160 100 5 "P" "e" ⟨"5", ["giveto \x7bplayer\x7d wood 3000"]⟩
    (by decide) (by decide) (by decide) (by decide)).1 (by decide)
  rw [h.1]
  decide

/-- C5: a replay (`teleportpos`) command for a player with no stored
coordinates transmits nothing — the step only sets the teleport-failed flag
and moves on — and whenever a trigger evaluation transmits zero commands
overall, the cooldown map is returned unchanged, so the same event is
evaluated afresh next time. -/
theorem claim5_replay_missing_state (coords : List (String × String))
    (marker : Option String) (player cmd : String) (rest : List String)
    (ok : Nat → Bool) (i : Nat)
    (st : EmoteBot.EmoteState) (ok2 : Nat → Bool) (now : Int) (pl em : String)
    (h1 : startsWithS cmd "teleportpos" = true)
    (h2 : pyStripS cmd ≠ "")
    (h3 : startsWithS cmd "printpos" = false)
    (h4 : lookupD coords player = none)
    (h5 : (EmoteBot.handle_emote_request st ok2 now pl em).2.1 = []) :
    EmoteBot.execCommands coords marker player (cmd :: rest) ok i
      = ((EmoteBot.execCommands coords marker player rest ok i).1,
         (EmoteBot.execCommands coords marker player rest ok i).2.1,
         (EmoteBot.execCommands coords marker player rest ok i).2.2.1, true) ∧
    (EmoteBot.handle_emote_request st ok2 now pl em).1.emote_cooldowns
      = st.emote_cooldowns := by
  constructor
  · simp [EmoteBot.execCommands, h1, h2, h3, h4]
  · exact (handle_cooldowns_or_sends st ok2 now pl em).resolve_right (fun hne => hne h5)

/-- C5 witness: a lone `teleportpos` template for a player with no stored
coordinates sends nothing, and the (empty-send) evaluation leaves the
cooldown map unchanged. -/
theorem claim5_replay_missing_state_witness :
    EmoteBot.execCommands [] none "P" ["teleportpos \x7bplayer\x7d"] (fun _ => true) 0
      = ((EmoteBot.execCommands [] none "P" [] (fun _ => true) 0).1,
         (EmoteBot.execCommands [] none "P" [] (fun _ => true) 0).2.1,
         (EmoteBot.execCommands [] none "P" [] (fun _ => true) 0).2.2.1, true) ∧
    (EmoteBot.handle_emote_request
        ⟨[], [], [("tp", ⟨"10", ["teleportpos \x7bplayer\x7d"]⟩)], none, []⟩
        (fun _ => true) 0 "P" "tp").1.emote_cooldowns
      = (⟨[], [], [("tp", ⟨"10", ["teleportpos \x7bplayer\x7d"]⟩)], none, []⟩ :
          EmoteBot.EmoteState).emote_cooldowns :=
  claim5_replay_missing_state [] none "P" "teleportpos \x7bplayer\x7d" [] (fun _ => true) 0
    ⟨[], [], [("tp", ⟨"10", ["teleportpos \x7bplayer\x7d"]⟩)], none, []⟩
    (fun _ => true) 0 "P" "tp" (by decide) (by decide) (by decide) rfl (by decide)

/-- C2: with player `p` marked as the pending capture requester, an inbound
text carrying the triple `(12.5, -3.0, 100.0)` stores exactly
`"12.5,-3.0,100.0"` for `p` in the coordinate store, and a subsequent replay
trigger for `p` transmits a teleport command embedding exactly that stored
string. -/
theorem claim2_capture_replay (p : String) (hp : p ≠ "") :
    lookupD (EmoteBot.process_message
        ⟨[], [], [("d11_quick_chat_combat_slot_1", ⟨"10", ["teleportpos \x7bplayer\x7d"]⟩)],
         some p, []⟩
        (fun _ => true) 0 "(12.5, -3.0, 100.0)" none).1.coordinates p
      = some "12.5,-3.0,100.0" ∧
    (EmoteBot.handle_emote_request
        (EmoteBot.process_message
          ⟨[], [], [("d11_quick_chat_combat_slot_1", ⟨"10", ["teleportpos \x7bplayer\x7d"]⟩)],
           some p, []⟩
          (fun _ => true) 0 "(12.5, -3.0, 100.0)" none).1
        (fun _ => true) 5 p "d11_quick_chat_combat_slot_1").2.1
      = ["teleportpos 12.5,-3.0,100.0 \"" ++ p ++ "\""] := by
  have hpm : EmoteBot.process_message
      ⟨[], [], [("d11_quick_chat_combat_slot_1", ⟨"10", ["teleportpos \x7bplayer\x7d"]⟩)],
       some p, []⟩
      (fun _ => true) 0 "(12.5, -3.0, 100.0)" none
      = (⟨[], [(p, "12.5,-3.0,100.0")],
          [("d11_quick_chat_combat_slot_1", ⟨"10", ["teleportpos \x7bplayer\x7d"]⟩)],
          none, []⟩, [], none) := by
    simp only [EmoteBot.process_message,
      show startsWithS (pyStripS "(12.5, -3.0, 100.0)") "\x7b" = false from rfl,
      show (EmoteBot.searchCoords ("(12.5, -3.0, 100.0)").data).isSome = true from rfl,
      show EmoteBot.extract_coordinates "(12.5, -3.0, 100.0)" = some "12.5,-3.0,100.0"
        from rfl]
    simp [hp, dictInsert]
  rw [hpm]
  constructor
  · simp [lookupD]
  · simp only [EmoteBot.handle_emote_request, EmoteBot.executePhase,
      show lookupD [("d11_quick_chat_combat_slot_1",
          (⟨"10", ["teleportpos \x7bplayer\x7d"]⟩ : EmoteBot.EmoteData))]
        "d11_quick_chat_combat_slot_1"
        = some ⟨"10", ["teleportpos \x7bplayer\x7d"]⟩ from rfl,
      show EmoteBot.pyInt "10" = some 10 from rfl]
    simp only [lookupD, EmoteBot.execCommands,
      show (pyStripS "teleportpos \x7bplayer\x7d" = "") = False by
        simp [show pyStripS "teleportpos \x7bplayer\x7d" = "teleportpos \x7bplayer\x7d"
          from rfl],
      show startsWithS "teleportpos \x7bplayer\x7d" "printpos" = false from rfl,
      show startsWithS "teleportpos \x7bplayer\x7d" "teleportpos" = true from rfl]
    norm_num [lookupD]
    rw [show ("teleportpos " ++ "12.5,-3.0,100.0" ++ " \"" : String)
      = "teleportpos 12.5,-3.0,100.0 \"" by decide]

/-- C2 witness: the capture/replay round trip for the concrete player
`Alice`. -/
theorem claim2_capture_replay_witness :
    lookupD (EmoteBot.process_message
        ⟨[], [], [("d11_quick_chat_combat_slot_1", ⟨"10", ["teleportpos \x7bplayer\x7d"]⟩)],
         some "Alice", []⟩
        (fun _ => true) 0 "(12.5, -3.0, 100.0)" none).1.coordinates "Alice"
      = some "12.5,-3.0,100.0" ∧
    (EmoteBot.handle_emote_request
        (EmoteBot.process_message
          ⟨[], [], [("d11_quick_chat_combat_slot_1", ⟨"10", ["teleportpos \x7bplayer\x7d"]⟩)],
           some "Alice", []⟩
          (fun _ => true) 0 "(12.5, -3.0, 100.0)" none).1
        (fun _ => true) 5 "Alice" "d11_quick_chat_combat_slot_1").2.1
      = ["teleportpos 12.5,-3.0,100.0 \"Alice\""] :=
  claim2_capture_replay "Alice" (by decide)

/-- C10 witness: a concrete all-NUL-and-space message and a state with a
pending entry for the very identifier of the empty response. -/
theorem claim10_empty_message_witness :
    pyClean "\u0000 \u0000" = "" ∧
    (EmoteBot.listen_step (.envelope "\u0000 \u0000" 7) = .skipEmpty ∧
     EmoteBot.delivered (EmoteBot.listen_step (.envelope "\u0000 \u0000" 7)) = none ∧
     ModsBot.process_rcon_message ⟨[(5, ⟨"players", "players"⟩)], []⟩ "" 5
       = (⟨[(5, ⟨"players", "players"⟩)], []⟩, none)) :=
  ⟨by decide, claim10_empty_message "\u0000 \u0000" 7 ⟨[(5, ⟨"players", "players"⟩)], []⟩ 5
    (by decide)⟩

/-- Helper: a line of the skip kind (blank or comment after stripping) leaves
the reader state unchanged. -/
theorem readStep_skip (acc : EmoteConfig.ReadState) (l : EmoteConfig.Line)
    (h : ((EmoteConfig.pyStrip l).isEmpty
            || ['#'].isPrefixOf (EmoteConfig.pyStrip l)) = true) :
    EmoteConfig.readStep acc l = acc := by
  obtain ⟨dict, cur, tv, cmds⟩ := acc
  simp only [EmoteConfig.readStep, h, if_true]

/-- Helper: a run of skip-kind lines leaves the reader state unchanged. -/
theorem foldl_readStep_skip (ls : List EmoteConfig.Line)
    (h : ∀ l ∈ ls, ((EmoteConfig.pyStrip l).isEmpty
            || ['#'].isPrefixOf (EmoteConfig.pyStrip l)) = true) :
    ∀ acc, List.foldl EmoteConfig.readStep acc ls = acc := by
  induction ls with
  | nil => intro acc; rfl
  | cons x xs ih =>
    intro acc
    rw [List.foldl_cons, readStep_skip acc x (h x (by simp)),
      ih (fun l hl => h l (by simp [hl])) acc]

/-- Helper: a strip-invariant list is already stripped on both ends. -/
theorem pyStrip_parts (t : EmoteConfig.Line) (h : EmoteConfig.pyStrip t = t) :
    t.dropWhile Char.isWhitespace = t
      ∧ t.reverse.dropWhile Char.isWhitespace = t.reverse := by
  have h1 : (t.dropWhile Char.isWhitespace).length ≤ t.length :=
    (List.dropWhile_sublist _).length_le
  have h3 : ((t.dropWhile Char.isWhitespace).reverse.dropWhile Char.isWhitespace).length
      ≤ (t.dropWhile Char.isWhitespace).length := by
    simpa using (List.dropWhile_sublist (l := (t.dropWhile Char.isWhitespace).reverse)
      Char.isWhitespace).length_le
  have hlen : t.length = (EmoteConfig.pyStrip t).length := by rw [h]
  have h2 : (EmoteConfig.pyStrip t).length
      = ((t.dropWhile Char.isWhitespace).reverse.dropWhile Char.isWhitespace).length := by
    simp [EmoteConfig.pyStrip]
  have hdw : t.dropWhile Char.isWhitespace = t :=
    (List.dropWhile_suffix _).eq_of_length (by omega)
  refine ⟨hdw, ?_⟩
  have h' := h
  unfold EmoteConfig.pyStrip at h'
  rw [hdw] at h'
  have := congrArg List.reverse h'
  simpa using this

/-- Helper: if dropping a satisfied prefix changes nothing, the head fails the
predicate. -/
theorem head_pred_false_of_dropWhile_self (p : Char → Bool) (a : Char)
    (as : EmoteConfig.Line) (h : (a :: as).dropWhile p = a :: as) : p a = false := by
  by_contra hpa
  have hpa' : p a = true := by revert hpa; cases p a <;> simp
  rw [List.dropWhile_cons_of_pos hpa'] at h
  have hlen := congrArg List.length h
  have hle : (as.dropWhile p).length ≤ as.length := (List.dropWhile_sublist _).length_le
  simp at hlen
  omega

/-- Helper: a line with non-whitespace first and last characters is
strip-invariant. -/
theorem pyStrip_ends (x y : Char) (hx : x.isWhitespace = false)
    (hy : y.isWhitespace = false) (m : EmoteConfig.Line) :
    EmoteConfig.pyStrip (x :: (m ++ [y])) = x :: (m ++ [y]) := by
  unfold EmoteConfig.pyStrip
  rw [List.dropWhile_cons_of_neg (by simp [hx])]
  rw [show (x :: (m ++ [y])).reverse = y :: (m.reverse ++ [x]) by simp]
  rw [List.dropWhile_cons_of_neg (by simp [hy])]
  simp

/-- Helper: the reader classifies a written section-header line as a section
header, flushes the open section and opens the new one. -/
theorem readStep_section (dict : List (EmoteConfig.Line × EmoteConfig.ConfigEntry))
    (cur tv : EmoteConfig.Line) (cmds : List EmoteConfig.Line) (n : EmoteConfig.Line) :
    EmoteConfig.readStep (dict, cur, tv, cmds) ('[' :: (n ++ [']']))
      = ((if cur.isEmpty then dict else dictInsert dict cur ⟨tv, cmds⟩), n, ['0'], []) := by
  simp only [EmoteConfig.readStep, pyStrip_ends '[' ']' (by decide) (by decide) n]
  simp [List.isPrefixOf, List.isSuffixOf]

/-- Helper: the reader classifies a written `time = <t>` line as the cooldown
line and stores the strip-invariant value `t` verbatim. -/
theorem readStep_time (dict : List (EmoteConfig.Line × EmoteConfig.ConfigEntry))
    (cur tv : EmoteConfig.Line) (cmds : List EmoteConfig.Line) (t : EmoteConfig.Line)
    (ht : EmoteConfig.pyStrip t = t) :
    EmoteConfig.readStep (dict, cur, tv, cmds)
        ('t' :: 'i' :: 'm' :: 'e' :: ' ' :: '=' :: ' ' :: t)
      = (dict, cur, t, cmds) := by
  rcases List.eq_nil_or_concat t with rfl | ⟨t0, c, rfl⟩
  · rfl
  · rw [List.concat_eq_append] at ht ⊢
    have hparts := pyStrip_parts _ ht
    have hc : c.isWhitespace = false := by
      have hthis := hparts.2
      rw [show (t0 ++ [c]).reverse = c :: t0.reverse by simp] at hthis
      exact head_pred_false_of_dropWhile_self _ _ _ hthis
    have hline : EmoteConfig.pyStrip
        ('t' :: 'i' :: 'm' :: 'e' :: ' ' :: '=' :: ' ' :: (t0 ++ [c]))
        = 't' :: 'i' :: 'm' :: 'e' :: ' ' :: '=' :: ' ' :: (t0 ++ [c]) := by
      have h0 := pyStrip_ends 't' c (by decide) hc
        ('i' :: 'm' :: 'e' :: ' ' :: '=' :: ' ' :: t0)
      simpa using h0
    have hval : EmoteConfig.pyStrip (' ' :: (t0 ++ [c])) = t0 ++ [c] := by
      unfold EmoteConfig.pyStrip
      rw [List.dropWhile_cons_of_pos (by decide), hparts.1]
      rw [hparts.2, List.reverse_reverse]
    simp only [EmoteConfig.readStep, hline]
    simp [List.isPrefixOf, hval]

/-- Helper: inside an open section, the reader appends a well-formed command
line verbatim. -/
theorem readStep_command (dict : List (EmoteConfig.Line × EmoteConfig.ConfigEntry))
    (cur tv : EmoteConfig.Line) (cmds : List EmoteConfig.Line) (c : EmoteConfig.Line)
    (hc : EmoteConfig.goodCommand c = true) (hcur : cur.isEmpty = false) :
    EmoteConfig.readStep (dict, cur, tv, cmds) c = (dict, cur, tv, cmds ++ [c]) := by
  simp only [EmoteConfig.goodCommand, Bool.and_eq_true, Bool.not_eq_true',
    decide_eq_true_eq] at hc
  obtain ⟨⟨⟨⟨⟨hstrip, hne⟩, hnl⟩, hhash⟩, hsec⟩, htime⟩ := hc
  simp [EmoteConfig.readStep, hstrip, hne, hhash, hsec, htime, hcur]

/-- Helper: folding the reader over a run of well-formed command lines appends
them all, in order. -/
theorem foldl_readStep_commands (cs : List EmoteConfig.Line)
    (hall : ∀ c ∈ cs, EmoteConfig.goodCommand c = true) :
    ∀ (dict : List (EmoteConfig.Line × EmoteConfig.ConfigEntry)) (cur tv : EmoteConfig.Line)
      (cmds : List EmoteConfig.Line), cur.isEmpty = false →
      List.foldl EmoteConfig.readStep (dict, cur, tv, cmds) cs
        = (dict, cur, tv, cmds ++ cs) := by
  induction cs with
  | nil => intro dict cur tv cmds _; simp
  | cons c cs ih =>
    intro dict cur tv cmds hcur
    rw [List.foldl_cons, readStep_command dict cur tv cmds c (hall c (by simp)) hcur,
      ih (fun x hx => hall x (by simp [hx])) dict cur tv (cmds ++ [c]) hcur]
    simp

/-- Helper: folding the reader over the lines of one written section flushes
the previously open section and leaves the new one open with its time value
and command list. -/
theorem foldl_readStep_section (n : EmoteConfig.Line) (e : EmoteConfig.ConfigEntry)
    (hn : n.isEmpty = false) (ht : EmoteConfig.pyStrip e.time = e.time)
    (hc : ∀ c ∈ e.commands, EmoteConfig.goodCommand c = true)
    (dict : List (EmoteConfig.Line × EmoteConfig.ConfigEntry))
    (cur tv : EmoteConfig.Line) (cmds : List EmoteConfig.Line) :
    List.foldl EmoteConfig.readStep (dict, cur, tv, cmds) (EmoteConfig.sectionLines n e)
      = ((if cur.isEmpty then dict else dictInsert dict cur ⟨tv, cmds⟩),
         n, e.time, e.commands) := by
  unfold EmoteConfig.sectionLines
  simp only [List.cons_append, List.nil_append]
  rw [List.foldl_cons, readStep_section dict cur tv cmds n]
  rw [List.foldl_cons, readStep_time _ n ['0'] [] e.time ht]
  rw [List.foldl_append, foldl_readStep_commands e.commands hc _ n e.time [] hn]
  rw [show ([[]] : List EmoteConfig.Line) = [([] : EmoteConfig.Line)] from rfl]
  rw [List.foldl_cons, readStep_skip _ [] (by decide), List.foldl_nil]
  simp

/-- Helper: a member of `dictInsert d k v` is a member of `d` or has key `k`. -/
theorem mem_dictInsert_imp {α β : Type} [BEq α] [LawfulBEq α]
    (d : List (α × β)) (k : α) (v : β) (q : α × β) (hq : q ∈ dictInsert d k v) :
    q ∈ d ∨ q.1 = k := by
  unfold dictInsert at hq
  split at hq
  · rcases List.mem_map.mp hq with ⟨p, hp, hpq⟩
    by_cases h : p.1 == k
    · rw [if_pos h] at hpq
      right
      rw [← hpq]
    · rw [if_neg h] at hpq
      left
      rw [← hpq]
      exact hp
  · rcases List.mem_append.mp hq with h | h
    · left; exact h
    · right
      simp only [List.mem_singleton] at h
      rw [h]

/-- Helper: inserting a fresh key appends the binding at the end. -/
theorem dictInsert_append_fresh {α β : Type} [BEq α] [LawfulBEq α]
    (d : List (α × β)) (k : α) (v : β) (h : ∀ p ∈ d, p.1 ≠ k) :
    dictInsert d k v = d ++ [(k, v)] := by
  unfold dictInsert
  rw [if_neg]
  intro hany
  rcases List.any_eq_true.mp hany with ⟨p, hp, hpk⟩
  exact h p hp (by simpa using hpk)

/-- Helper: a member of the finished dictionary came from the accumulated
dictionary or from the still-open section. -/
theorem mem_finishRead_imp (dict : List (EmoteConfig.Line × EmoteConfig.ConfigEntry))
    (cur tv : EmoteConfig.Line) (cmds : List EmoteConfig.Line)
    (q : EmoteConfig.Line × EmoteConfig.ConfigEntry)
    (hq : q ∈ EmoteConfig.finishRead (dict, cur, tv, cmds)) : q ∈ dict ∨ q.1 = cur := by
  unfold EmoteConfig.finishRead at hq
  split at hq
  · exact Or.inl hq
  · exact mem_dictInsert_imp _ _ _ _ hq

/-- Helper: folding the reader over the written text of a list of sections
whose names are distinct and fresh appends those sections, in order, to the
finished dictionary. -/
theorem finishRead_foldl_sections (l : List (EmoteConfig.Line × EmoteConfig.ConfigEntry))
    (hgn : ∀ p ∈ l, p.1.isEmpty = false)
    (hgt : ∀ p ∈ l, EmoteConfig.pyStrip p.2.time = p.2.time)
    (hgc : ∀ p ∈ l, ∀ c ∈ p.2.commands, EmoteConfig.goodCommand c = true)
    (hnodup : (l.map Prod.fst).Pairwise (· ≠ ·)) :
    ∀ (dict : List (EmoteConfig.Line × EmoteConfig.ConfigEntry)) (cur tv : EmoteConfig.Line)
      (cmds : List EmoteConfig.Line),
      (∀ p ∈ l, (∀ q ∈ dict, q.1 ≠ p.1) ∧ p.1 ≠ cur) →
      EmoteConfig.finishRead
          (List.foldl EmoteConfig.readStep (dict, cur, tv, cmds)
            (l.foldr (fun p acc => EmoteConfig.sectionLines p.1 p.2 ++ acc) []))
        = EmoteConfig.finishRead (dict, cur, tv, cmds) ++ l := by
  revert hgn hgt hgc hnodup
  induction l with
  | nil => intro _ _ _ _ dict cur tv cmds _; simp
  | cons p rest ih =>
    intro hgn hgt hgc hnodup dict cur tv cmds hfresh
    obtain ⟨n, e⟩ := p
    rw [List.foldr_cons, List.foldl_append]
    rw [foldl_readStep_section n e (hgn (n, e) (by simp)) (hgt (n, e) (by simp))
      (hgc (n, e) (by simp)) dict cur tv cmds]
    have hD : (if cur.isEmpty then dict else dictInsert dict cur ⟨tv, cmds⟩)
        = EmoteConfig.finishRead (dict, cur, tv, cmds) := rfl
    rw [hD]
    rw [List.map_cons] at hnodup
    have hpairs := List.pairwise_cons.mp hnodup
    have hfresh' : ∀ p1 ∈ rest,
        (∀ q ∈ EmoteConfig.finishRead (dict, cur, tv, cmds), q.1 ≠ p1.1) ∧ p1.1 ≠ n := by
      intro p1 hp1
      refine ⟨fun q hq => ?_, ?_⟩
      · rcases mem_finishRead_imp dict cur tv cmds q hq with hqd | hqc
        · exact (hfresh p1 (by simp [hp1])).1 q hqd
        · rw [hqc]
          exact fun hcp => (hfresh p1 (by simp [hp1])).2 hcp.symm
      · intro hpn
        exact hpairs.1 p1.1 (List.mem_map_of_mem Prod.fst hp1) hpn.symm
    rw [ih (fun q hq => hgn q (by simp [hq])) (fun q hq => hgt q (by simp [hq]))
      (fun q hq => hgc q (by simp [hq])) hpairs.2
      (EmoteConfig.finishRead (dict, cur, tv, cmds)) n e.time e.commands hfresh']
    have hstep : EmoteConfig.finishRead
        (EmoteConfig.finishRead (dict, cur, tv, cmds), n, e.time, e.commands)
        = EmoteConfig.finishRead (dict, cur, tv, cmds) ++ [(n, e)] := by
      have hDfresh : ∀ q ∈ EmoteConfig.finishRead (dict, cur, tv, cmds), q.1 ≠ n := by
        intro q hq
        rcases mem_finishRead_imp dict cur tv cmds q hq with hqd | hqc
        · exact (hfresh (n, e) (by simp)).1 q hqd
        · rw [hqc]
          exact fun hcp => (hfresh (n, e) (by simp)).2 hcp.symm
      show (if n.isEmpty then _ else _) = _
      rw [if_neg (by simp [hgn (n, e) (by simp)])]
      exact dictInsert_append_fresh _ n ⟨e.time, e.commands⟩ hDfresh
    rw [hstep]
    simp

/-- C9 counterexample: a registry whose single trigger carries the command
line `#x` does not survive the round trip — on reload the line is skipped as
a comment and the command list comes back empty. -/
theorem claim9_counterexample :
    EmoteConfig.read_emote_config (EmoteConfig.write_emote_config
        [(['a'], ⟨['0'], [['#', 'x']]⟩)])
      ≠ [(['a'], ⟨['0'], [['#', 'x']]⟩)] := by
  decide

/-- C9 amended: writing the Trigger Registry and reloading the text yields an
identical mapping provided the registry (listed as the dict's sorted items,
hence with pairwise-distinct names) is well-formed: names non-empty and
newline-free, time values strip-invariant and newline-free, and command lines
strip-invariant, non-empty, newline-free, not comments, not shaped like
section headers, and not starting with `time =`. -/
theorem claim9_roundtrip (l : List (EmoteConfig.Line × EmoteConfig.ConfigEntry))
    (hnames : (l.map Prod.fst).Pairwise (· ≠ ·))
    (hgn : ∀ p ∈ l, EmoteConfig.goodName p.1 = true)
    (hgt : ∀ p ∈ l, EmoteConfig.goodTime p.2.time = true)
    (hgc : ∀ p ∈ l, ∀ c ∈ p.2.commands, EmoteConfig.goodCommand c = true) :
    EmoteConfig.read_emote_config (EmoteConfig.write_emote_config l) = l := by
  have hne : ∀ p ∈ l, p.1.isEmpty = false := by
    intro p hp
    have h := hgn p hp
    simp only [EmoteConfig.goodName, Bool.and_eq_true, Bool.not_eq_true'] at h
    exact h.1
  have hnonnil : ∀ p ∈ l, p.1 ≠ [] := by
    intro p hp hnil
    have h := hne p hp
    rw [hnil] at h
    simp at h
  have hti : ∀ p ∈ l, EmoteConfig.pyStrip p.2.time = p.2.time := by
    intro p hp
    have h := hgt p hp
    simp only [EmoteConfig.goodTime, Bool.and_eq_true, decide_eq_true_eq] at h
    exact h.1
  unfold EmoteConfig.read_emote_config EmoteConfig.write_emote_config
  rw [List.foldl_append]
  rw [foldl_readStep_skip EmoteConfig.headerLines (by decide) _]
  rw [finishRead_foldl_sections l hne hti hgc hnames
    [] [] ['0'] []
    (fun p hp => ⟨fun q hq => by simp at hq, hnonnil p hp⟩)]
  rfl

/-- C9 witness: a two-trigger registry in sorted order survives the round
trip. -/
theorem claim9_roundtrip_witness :
    EmoteConfig.read_emote_config (EmoteConfig.write_emote_config
        [(['a'], ⟨['5'], [['g', 'o']]⟩), (['b'], ⟨['0'], []⟩)])
      = [(['a'], ⟨['5'], [['g', 'o']]⟩), (['b'], ⟨['0'], []⟩)] :=
  claim9_roundtrip _ (by decide) (by decide) (by decide) (by decide)
